import Mathlib

/-!
# Verification of the cloudflare-ddns reconciliation core

Shallow embedding of the Go sources of `oberwager/cloudflare-ddns`:

* `internal/retry/retry.go` — the backoff scheduler (`WithBackoff`,
  `isRetryableError`, `contains`, `findSubstring`, `Config`,
  `DefaultConfig`), embedded in namespace `retry`;
* the cloudflare reconciliation file (`processZone`, `upsertRecord`,
  `cfAPI` and the response structures), embedded in namespace
  `cloudflare`;
* the TTL-defaulting wiring of `main.go`.

Durations (`time.Duration`) are modelled as mathematical integers counting
nanoseconds; Go `int` fields are modelled as `Int`.  Go errors are modelled
by the `GoError` structure recording exactly what the retry layer inspects:
the result of the `err.(net.Error)` type assertion (`isNet`, and the values
of `Timeout()`/`Temporary()`), and the message bytes returned by
`err.Error()` (as a `List Char`; all relevant patterns are ASCII).
`fmt.Errorf` wrappings are modelled by dedicated constructors of result
inductives, each corresponding to one `return` statement of the source.
-/

namespace retry

/-- Model of a Go `error` value as observed by `internal/retry/retry.go`:
the `err.(net.Error)` type assertion outcome and the `err.Error()` text. -/
structure GoError where
  isNet : Bool
  timeout : Bool
  temporary : Bool
  msg : List Char
deriving DecidableEq, Repr

/-- Embedding of `findSubstring` (retry.go lines 131-138): scan every
starting index `i` with `0 ≤ i ≤ len(s)-len(substr)` for a match of
`substr` at `s[i:i+len(substr)]`.  When `len(s) < len(substr)` the Go loop
body never runs; here `Nat` truncation makes the single scanned window too
short to match, so the result is `false` in that case as well. -/
def findSubstring (s substr : List Char) : Bool :=
  (List.range (s.length - substr.length + 1)).any fun i =>
    (s.drop i).take substr.length == substr

/-- Embedding of `contains` (retry.go lines 124-129): length guard, then
equality, prefix window, suffix window, or a full scan. -/
def contains (s substr : List Char) : Bool :=
  decide (s.length ≥ substr.length) &&
    (s == substr || (decide (s.length > substr.length) &&
      (s.take substr.length == substr ||
        s.drop (s.length - substr.length) == substr ||
        findSubstring s substr)))

/-- The pattern list of `isRetryableError` (retry.go lines 105-113). -/
def retryablePatterns : List (List Char) :=
  ["connection refused".toList,
   "connection reset".toList,
   "no such host".toList,
   "timeout".toList,
   "temporary failure".toList,
   "too many open files".toList,
   "i/o timeout".toList]

/-- Embedding of `isRetryableError` (retry.go lines 99-122): a `net.Error`
is retryable iff `Timeout() || Temporary()` (the message is never
consulted); any other error is retryable iff its message contains one of
the seven patterns. -/
def isRetryableError (e : GoError) : Bool :=
  if e.isNet then e.timeout || e.temporary
  else retryablePatterns.any fun p => contains e.msg p

/-- Embedding of `retry.Config` (retry.go lines 27-31); waits are in
nanoseconds (`time.Duration` is an `int64` count of nanoseconds). -/
structure Config where
  maxRetries : Int
  initialWait : Int
  maxWait : Int
deriving DecidableEq, Repr

/-- Embedding of `DefaultConfig` (retry.go lines 33-39): 5 retries,
1 second initial wait, 32 seconds max wait. -/
def DefaultConfig : Config :=
  ⟨5, 1000000000, 32000000000⟩

/-- The pre-jitter backoff of attempt `k ≥ 1` (retry.go lines 48-51):
`2^(k-1) * InitialWait`, capped at `MaxWait`.  `math.Pow(2, k-1)` and the
`time.Duration` conversion are exact in the claims' range, so the base is
modelled as exact integer arithmetic. -/
def backoffBase (cfg : Config) (attempt : Nat) : Int :=
  let b := 2 ^ (attempt - 1) * cfg.initialWait
  if b > cfg.maxWait then cfg.maxWait else b

/-- The slept delay of attempt `k ≥ 1` (retry.go lines 53-58): the capped
base plus or minus the drawn jitter.  The jitter value
`time.Duration(rand.Float64() * 0.5 * float64(backoff))` is passed in as
`jitter`; every drawable value is an integer `j` with `0 ≤ j` and
`2*j ≤ backoffBase` (the draw is `< 0.5 * base` and truncated toward
zero).  `add` is the `rand.Intn(2) == 0` coin. -/
def backoffDelay (cfg : Config) (attempt : Nat) (jitter : Int) (add : Bool) : Int :=
  let b := backoffBase cfg attempt
  if add then b + jitter else b - jitter

/-- Model of the two context-observation points inside `WithBackoff`.
`doneBeforeSleep k` is what the `select` before attempt `k`'s sleep
observes (`some e` means `<-ctx.Done()` fired with `ctx.Err() = e`;
`none` means the timer won the select).  `errAfterFn k` is the value of
`ctx.Err()` checked right after attempt `k`'s `fn` call failed.  Both are
free oracles, which covers every interleaving of an external
cancellation with the loop. -/
structure CtxModel where
  doneBeforeSleep : Nat → Option GoError
  errAfterFn : Nat → Option GoError

/-- The context that is never cancelled. -/
def ctxNone : CtxModel := ⟨fun _ => none, fun _ => none⟩

/-- The value returned by `WithBackoff`, one constructor per `return`
statement of retry.go:

* `ok` — `return nil` (line 93);
* `cancelledDuringWait e` — `return fmt.Errorf("context cancelled: %w", ctx.Err())`
  from the select (line 69), carrying the cancellation cause;
* `cancelledAfterFailure e` — `return fmt.Errorf("context cancelled during %s: %w", ...)`
  (line 78);
* `nonRetryable err` — `return fmt.Errorf("%s: non-retryable error: %w", ...)`
  (line 82);
* `maxRetriesExceeded lastErr` — `return fmt.Errorf("%s: max retries (%d) exceeded: %w", ...)`
  (line 96), carrying the last underlying error. -/
inductive RetryResult where
  | ok
  | cancelledDuringWait (cause : GoError)
  | cancelledAfterFailure (cause : GoError)
  | nonRetryable (err : GoError)
  | maxRetriesExceeded (lastErr : Option GoError)
deriving DecidableEq, Repr

/-- One execution of the loop body of `WithBackoff` (retry.go lines
46-94), by recursion on the remaining loop iterations (`fuel`), starting
at loop counter `attempt` with accumulated `lastErr`.  `fn k` is the
outcome of the `k`-th invocation of the operation (`none` = success).
Returns the result together with the number of times `fn` was invoked. -/
def withBackoffAux (ctx : CtxModel) (fn : Nat → Option GoError) :
    Nat → Option GoError → Nat → RetryResult × Nat
  | _, lastErr, 0 => (RetryResult.maxRetriesExceeded lastErr, 0)
  | attempt, _, fuel + 1 =>
    let step : RetryResult × Nat :=
      match fn attempt with
      | none => (RetryResult.ok, 1)
      | some err =>
        match ctx.errAfterFn attempt with
        | some e => (RetryResult.cancelledAfterFailure e, 1)
        | none =>
          if isRetryableError err then
            let r := withBackoffAux ctx fn (attempt + 1) (some err) fuel
            (r.1, r.2 + 1)
          else (RetryResult.nonRetryable err, 1)
    if attempt = 0 then step
    else
      match ctx.doneBeforeSleep attempt with
      | some e => (RetryResult.cancelledDuringWait e, 0)
      | none => step

/-- Embedding of `WithBackoff` (retry.go lines 43-97): the loop runs while
`attempt <= config.MaxRetries`, i.e. `(MaxRetries + 1).toNat` iterations
(zero iterations when `MaxRetries` is negative, exactly as the Go `for`
loop).  The slept delays do not influence the result and are modelled
separately by `backoffDelay`. -/
def WithBackoff (cfg : Config) (ctx : CtxModel) (fn : Nat → Option GoError) :
    RetryResult × Nat :=
  withBackoffAux ctx fn 0 none (cfg.maxRetries + 1).toNat

/-- The substring relation in the spec's vocabulary: `p` occurs
contiguously inside `s`. -/
def containsSubstring (s p : List Char) : Prop :=
  ∃ pre post, s = pre ++ p ++ post

/-- An executable substring test written independently of the source's
`contains`: some window of `s` equals `p`. -/
def specContains (s p : List Char) : Bool :=
  (List.range (s.length + 1)).any fun i => (s.drop i).take p.length == p

/-- The error classification exactly as the examined claim words it: a
network-level timeout, or a transient network condition — a temporary
typed network error, or a message containing "connection refused",
"connection reset", a DNS resolution failure ("no such host"), or the
substrings "timeout" or "temporary failure".  This is the claim side of
C5, to be compared with the source's `isRetryableError`. -/
def claimRetryable (e : GoError) : Bool :=
  (e.isNet && (e.timeout || e.temporary)) ||
  specContains e.msg "connection refused".toList ||
  specContains e.msg "connection reset".toList ||
  specContains e.msg "no such host".toList ||
  specContains e.msg "timeout".toList ||
  specContains e.msg "temporary failure".toList

end retry

namespace cloudflare

/-- Embedding of `Record` (cloudflare file lines 15-22).  The desired
record built by `upsertRecord` has the zero value `""` for `id`. -/
structure Record where
  id : String
  type : String
  name : String
  content : String
  proxied : Bool
  ttl : Int
deriving DecidableEq, Repr

/-- Embedding of `ZoneResponse` (lines 24-30); `name` is the nested
`Result.Name` field (the zone's base domain). -/
structure ZoneResponse where
  name : String
  success : Bool
  errors : List String
deriving DecidableEq, Repr

/-- Embedding of `ListRecordsResponse` (lines 32-36). -/
structure ListRecordsResponse where
  result : List Record
  success : Bool
  errors : List String
deriving DecidableEq, Repr

/-- A response body as later consumed by `json.Unmarshal` in the caller:
either bytes that unmarshal to `α`, or malformed bytes. -/
inductive ParseResult (α : Type) where
  | ok (a : α)
  | malformed
deriving DecidableEq, Repr

/-- What one invocation of `httpClient.Do` produces for one request:
either a transport-level error (`resp, err := httpClient.Do(req)` with
`err != nil`), or an HTTP response with a status code and a body. -/
inductive TResult (α : Type) where
  | netErr (e : retry.GoError)
  | http (status : Nat) (body : ParseResult α)
deriving DecidableEq, Repr

/-- An error returned by `cfAPI` (lines 150-184): the wrapped transport
error (`"execute request: %w"`), or the `"HTTP %d: %s"` error raised for
status codes `>= 400`.  The marshal/new-request/read-body failure paths
cannot fire for the fixed request shapes of this program and are not
modelled. -/
inductive CfCallErr where
  | executeRequest (e : retry.GoError)
  | httpStatus (status : Nat)
deriving DecidableEq, Repr

/-- The result of `cfAPI`, modelling `([]byte, error)`: either the wrapped
error, or the response bytes (already viewed through the parse the caller
will perform). -/
inductive CfAPIResult (α : Type) where
  | err (e : CfCallErr)
  | ok (body : ParseResult α)
deriving DecidableEq, Repr

/-- Embedding of `cfAPI` (lines 150-184) applied to the transport's answer
for its single `httpClient.Do` invocation: a transport error is wrapped
and returned; a status `>= 400` becomes an error; otherwise the body is
returned.  Note there is no retry loop here: `cfAPI` performs exactly one
transport call. -/
def cfAPI {α : Type} (t : TResult α) : CfAPIResult α :=
  match t with
  | TResult.netErr e => CfAPIResult.err (CfCallErr.executeRequest e)
  | TResult.http status body =>
    if 400 ≤ status then CfAPIResult.err (CfCallErr.httpStatus status)
    else CfAPIResult.ok body

/-- An error returned by `upsertRecord` or `processZone`, one constructor
per `fmt.Errorf` return in the cloudflare file. -/
inductive CfErr where
  | listRecords (e : CfCallErr)
  | unmarshalList
  | listAPIError (errs : List String)
  | createRecord (e : CfCallErr)
  | updateRecord (e : CfCallErr)
  | getZone (e : CfCallErr)
  | unmarshalZone
  | zoneAPIError (errs : List String)
deriving DecidableEq, Repr

/-- A write request issued by `upsertRecord`: the `POST` create (line 123)
or the `PUT` update addressed to a record id (line 142).  These are the
only write operations the source ever issues; in particular no `DELETE`
request exists anywhere in the program. -/
inductive WriteReq where
  | create (zoneID : String) (r : Record)
  | update (zoneID : String) (id : String) (r : Record)
deriving DecidableEq, Repr

/-- The network's answers for the (at most two) transport calls of one
`upsertRecord` run: the list query and the create/update that may
follow. -/
structure UpsertNet where
  listCall : TResult ListRecordsResponse
  writeCall : TResult Unit
deriving Repr

/-- Observable outcome of one `upsertRecord` run: the returned Go error
(`none` = `return nil`), the write requests issued, the
multiple-records warnings emitted (each carrying the `count` field of the
`slog.Warn` at line 131), and the number of `httpClient.Do` invocations
performed. -/
structure UpsertOutcome where
  result : Option CfErr
  writes : List WriteReq
  warnings : List Nat
  transportCalls : Nat
deriving DecidableEq, Repr

/-- Embedding of `upsertRecord` (lines 98-148).  The desired record is
`{Type: recordType, Name: fqdn, Content: ip, Proxied: proxied, TTL: ttl}`;
zero results trigger a create, otherwise the first listed record is
compared via `existing.TTL == ttl || (proxied && existing.TTL == 1)` and
the content/proxied equalities, and an update addressed to
`existing.ID` is issued when the comparison fails. -/
def upsertRecord (zoneID fqdn recordType ip : String) (proxied : Bool)
    (ttl : Int) (net : UpsertNet) : UpsertOutcome :=
  match cfAPI net.listCall with
  | CfAPIResult.err e => ⟨some (CfErr.listRecords e), [], [], 1⟩
  | CfAPIResult.ok ParseResult.malformed => ⟨some CfErr.unmarshalList, [], [], 1⟩
  | CfAPIResult.ok (ParseResult.ok listResp) =>
    if listResp.success = false then
      ⟨some (CfErr.listAPIError listResp.errors), [], [], 1⟩
    else
      let record : Record := ⟨"", recordType, fqdn, ip, proxied, ttl⟩
      match listResp.result with
      | [] =>
        match cfAPI net.writeCall with
        | CfAPIResult.err e =>
          ⟨some (CfErr.createRecord e), [WriteReq.create zoneID record], [], 2⟩
        | CfAPIResult.ok _ =>
          ⟨none, [WriteReq.create zoneID record], [], 2⟩
      | existing :: rest =>
        let warns := if (existing :: rest).length > 1
          then [(existing :: rest).length] else []
        let ttlMatches := existing.ttl == ttl || (proxied && existing.ttl == 1)
        if existing.content == ip && existing.proxied == proxied && ttlMatches then
          ⟨none, [], warns, 1⟩
        else
          match cfAPI net.writeCall with
          | CfAPIResult.err e =>
            ⟨some (CfErr.updateRecord e),
              [WriteReq.update zoneID existing.id record], warns, 2⟩
          | CfAPIResult.ok _ =>
            ⟨none, [WriteReq.update zoneID existing.id record], warns, 2⟩

/-- Embedding of `config.Subdomain` as used by the cloudflare file and its
tests (fields `Name`, `Proxied`, `TTL`). -/
structure Subdomain where
  name : String
  proxied : Bool
  ttl : Int
deriving DecidableEq, Repr

/-- Embedding of `config.Zone` as used by the cloudflare file and its
tests (fields `ZoneID`, `TTL`, `Subdomains`). -/
structure Zone where
  zoneID : String
  ttl : Int
  subdomains : List Subdomain
deriving DecidableEq, Repr

/-- One recorded call to `upsertRecord` made by `processZone`, with the
arguments it received and its outcome. -/
structure UpsertCall where
  fqdn : String
  recordType : String
  ip : String
  proxied : Bool
  ttl : Int
  outcome : UpsertOutcome
deriving DecidableEq, Repr

/-- A `slog.Error` event emitted by the subdomain worker when an upsert
fails (lines 83 and 88): the fqdn, the record type, and the error. -/
inductive LogEvent where
  | upsertError (fqdn recordType : String) (e : CfErr)
deriving DecidableEq, Repr

/-- Embedding of `strings.ToLower` as applied to a subdomain name. -/
def goToLower (s : String) : String := s.map Char.toLower

/-- Embedding of `strings.TrimSpace` as applied to a subdomain name. -/
def goTrimSpace (s : String) : String := s.trim

/-- One subdomain worker body (lines 65-91): build the fqdn (bare base
domain for the empty name or the `"@"` apex marker, otherwise
`name + "." + baseDomain` after trimming and lower-casing), resolve the
TTL (`s.TTL`, or `zoneTTL` when it is 0), upsert the `A` record, and —
only when an IPv6 address was supplied — upsert the `AAAA` record.  Each
failed upsert produces one error log event and nothing else: the error is
not returned. -/
def subdomainUnit (zoneID baseDomain ipv4 ipv6 : String) (zoneTTL : Int)
    (s : Subdomain) (netA netAAAA : UpsertNet) :
    List UpsertCall × List LogEvent :=
  let nm := goToLower (goTrimSpace s.name)
  let fqdn := if nm ≠ "" ∧ nm ≠ "@" then nm ++ "." ++ baseDomain else baseDomain
  let ttl := if s.ttl = 0 then zoneTTL else s.ttl
  let oA := upsertRecord zoneID fqdn "A" ipv4 s.proxied ttl netA
  let callA : UpsertCall := ⟨fqdn, "A", ipv4, s.proxied, ttl, oA⟩
  let logsA := match oA.result with
    | some e => [LogEvent.upsertError fqdn "A" e]
    | none => []
  if ipv6 ≠ "" then
    let oB := upsertRecord zoneID fqdn "AAAA" ipv6 s.proxied ttl netAAAA
    let callB : UpsertCall := ⟨fqdn, "AAAA", ipv6, s.proxied, ttl, oB⟩
    let logsB := match oB.result with
      | some e => [LogEvent.upsertError fqdn "AAAA" e]
      | none => []
    ([callA, callB], logsA ++ logsB)
  else ([callA], logsA)

/-- The fan-out over subdomains (lines 60-94).  The goroutines only share
the semaphore and the wait group; the recorded calls and logs of distinct
subdomains are independent, so the fan-out is modelled by running the
units in configuration order and concatenating their observations.
`netA i`/`netAAAA i` are the network answers for subdomain `i`. -/
def runSubdomains (zoneID baseDomain ipv4 ipv6 : String) (zoneTTL : Int)
    (netA netAAAA : Nat → UpsertNet) :
    Nat → List Subdomain → List UpsertCall × List LogEvent
  | _, [] => ([], [])
  | i, s :: ss =>
    let u := subdomainUnit zoneID baseDomain ipv4 ipv6 zoneTTL s (netA i) (netAAAA i)
    let rest := runSubdomains zoneID baseDomain ipv4 ipv6 zoneTTL netA netAAAA (i + 1) ss
    (u.1 ++ rest.1, u.2 ++ rest.2)

/-- Observable outcome of one `ProcessZone` run: the returned Go error
(`none` = `return nil`), every `upsertRecord` invocation with its
outcome, the subdomain-level error logs, and the total number of
`httpClient.Do` invocations (the zone lookup plus those of the
upserts). -/
structure ZoneOutcome where
  result : Option CfErr
  upserts : List UpsertCall
  errLogs : List LogEvent
  transportCalls : Nat
deriving Repr

/-- Embedding of `processZone` (lines 38-96): one `cfAPI` zone lookup
(fatal on transport error, unmarshal failure, or `success=false`), the
zone TTL default (`zone.TTL`, or `defaultTTL` when it is 0), then the
subdomain fan-out followed by `wg.Wait()` and an unconditional
`return nil`. -/
def ProcessZone (zone : Zone) (ipv4 ipv6 : String) (defaultTTL : Int)
    (zoneCall : TResult ZoneResponse) (netA netAAAA : Nat → UpsertNet) :
    ZoneOutcome :=
  match cfAPI zoneCall with
  | CfAPIResult.err e => ⟨some (CfErr.getZone e), [], [], 1⟩
  | CfAPIResult.ok ParseResult.malformed => ⟨some CfErr.unmarshalZone, [], [], 1⟩
  | CfAPIResult.ok (ParseResult.ok zr) =>
    if zr.success = false then ⟨some (CfErr.zoneAPIError zr.errors), [], [], 1⟩
    else
      let zoneTTL := if zone.ttl = 0 then defaultTTL else zone.ttl
      let r := runSubdomains zone.zoneID zr.name ipv4 ipv6 zoneTTL netA netAAAA 0
        zone.subdomains
      ⟨none, r.1, r.2, 1 + (r.1.map fun c => c.outcome.transportCalls).sum⟩

/-- The TTL wiring of `main.go` (lines 34-36): a configured default TTL of
0 is replaced by 300 before `ProcessZone` is called. -/
def mainDefaultTTL (cfgDefault : Int) : Int :=
  if cfgDefault = 0 then 300 else cfgDefault

/-- The log event a subdomain worker emits for one upsert call, if any. -/
def logOfCall (c : UpsertCall) : Option LogEvent :=
  match c.outcome.result with
  | some e => some (LogEvent.upsertError c.fqdn c.recordType e)
  | none => none

lemma cfAPI_http_lt {α : Type} (status : Nat) (body : ParseResult α)
    (h : status < 400) :
    cfAPI (TResult.http status body) = CfAPIResult.ok body := by
  simp only [cfAPI, if_neg (by omega : ¬ (400 ≤ status))]

lemma subdomainUnit_logs (zoneID baseDomain ipv4 ipv6 : String)
    (zoneTTL : Int) (s : Subdomain) (nA nAAAA : UpsertNet) :
    (subdomainUnit zoneID baseDomain ipv4 ipv6 zoneTTL s nA nAAAA).2 =
      (subdomainUnit zoneID baseDomain ipv4 ipv6 zoneTTL s nA nAAAA).1.filterMap
        logOfCall := by
  by_cases h6 : ipv6 ≠ "" <;>
    simp only [subdomainUnit, h6, if_true, if_false, ite_not] <;>
    rcases hA : (upsertRecord zoneID _ "A" ipv4 s.proxied _ nA).result with _ | eA
  case neg.none =>
    simp [List.filterMap, logOfCall, hA]
  case neg.some =>
    simp [List.filterMap, logOfCall, hA]
  case pos.none =>
    rcases hB : (upsertRecord zoneID _ "AAAA" ipv6 s.proxied _ nAAAA).result with _ | eB <;>
      simp [List.filterMap, logOfCall, hA, hB]
  case pos.some =>
    rcases hB : (upsertRecord zoneID _ "AAAA" ipv6 s.proxied _ nAAAA).result with _ | eB <;>
      simp [List.filterMap, logOfCall, hA, hB]

lemma runSubdomains_logs (zoneID baseDomain ipv4 ipv6 : String)
    (zoneTTL : Int) (netA netAAAA : Nat → UpsertNet) :
    ∀ (i : Nat) (subs : List Subdomain),
      (runSubdomains zoneID baseDomain ipv4 ipv6 zoneTTL netA netAAAA i subs).2 =
        (runSubdomains zoneID baseDomain ipv4 ipv6 zoneTTL netA netAAAA i
          subs).1.filterMap logOfCall
  | _, [] => by simp [runSubdomains]
  | i, s :: ss => by
    simp only [runSubdomains, List.filterMap_append]
    rw [subdomainUnit_logs, runSubdomains_logs zoneID baseDomain ipv4 ipv6 zoneTTL
      netA netAAAA (i + 1) ss]

/-- The per-subdomain TTLs recorded by the fan-out: each unit resolves
`s.TTL`, falling back to the zone TTL, and passes that value to one
upsert call (two when IPv6 is enabled). -/
lemma runSubdomains_ttls (zoneID baseDomain ipv4 ipv6 : String)
    (zoneTTL : Int) (netA netAAAA : Nat → UpsertNet) :
    ∀ (i : Nat) (subs : List Subdomain),
      ((runSubdomains zoneID baseDomain ipv4 ipv6 zoneTTL netA netAAAA i
          subs).1.map fun c => c.ttl) =
        (subs.map fun s =>
          let t := if s.ttl = 0 then zoneTTL else s.ttl
          if ipv6 ≠ "" then [t, t] else [t]).flatten
  | _, [] => by simp [runSubdomains]
  | i, s :: ss => by
    simp only [runSubdomains, List.map_append, List.map_cons, List.flatten_cons]
    rw [runSubdomains_ttls zoneID baseDomain ipv4 ipv6 zoneTTL netA netAAAA
      (i + 1) ss]
    by_cases h6 : ipv6 ≠ "" <;> simp [subdomainUnit, h6]

/-- C3: when the list query returns at least one record, `upsertRecord`
treats the first remote record as up to date — returning success and
issuing no create or update request — if and only if its content equals
the desired content, its proxied flag equals the desired flag, and its
TTL equals the desired TTL or the desired flag is proxied and the remote
TTL is the sentinel 1. -/
theorem upsertRecord_up_to_date_iff (zoneID fqdn recordType ip : String)
    (proxied : Bool) (ttl : Int) (status : Nat) (errs : List String)
    (existing : Record) (rest : List Record) (w : TResult Unit)
    (hs : status < 400) :
    ((upsertRecord zoneID fqdn recordType ip proxied ttl
        ⟨TResult.http status (ParseResult.ok ⟨existing :: rest, true, errs⟩),
          w⟩).result = none ∧
      (upsertRecord zoneID fqdn recordType ip proxied ttl
        ⟨TResult.http status (ParseResult.ok ⟨existing :: rest, true, errs⟩),
          w⟩).writes = []) ↔
      (existing.content = ip ∧ existing.proxied = proxied ∧
        (existing.ttl = ttl ∨ (proxied = true ∧ existing.ttl = 1))) := by
  by_cases hc : (existing.content == ip && existing.proxied == proxied &&
      (existing.ttl == ttl || (proxied && existing.ttl == 1))) = true
  · simp only [upsertRecord, cfAPI_http_lt status _ hs, hc, if_true]
    simp only [Bool.and_eq_true, Bool.or_eq_true, beq_iff_eq] at hc
    exact iff_of_true ⟨rfl, rfl⟩ ⟨hc.1.1, hc.1.2, hc.2⟩
  · rcases h2 : cfAPI w with e | b <;>
    · simp only [upsertRecord, cfAPI_http_lt status _ hs, hc, h2]
      simp only [Bool.and_eq_true, Bool.or_eq_true, beq_iff_eq] at hc
      push_neg at hc
      refine iff_of_false (by simp) ?_
      rintro ⟨h1, h3, h5⟩
      rcases hc ⟨h1, h3⟩ with ⟨h4, h6⟩
      rcases h5 with h5 | ⟨hp, h5⟩
      · exact h4 h5
      · exact h6 hp h5

/-- Witness for C3: a proxied remote record with the TTL sentinel 1 and
matching content is reported up to date against desired TTL 300. -/
theorem upsertRecord_up_to_date_iff_witness :
    ((upsertRecord "z" "www.example.com" "A" "1.2.3.4" true 300
        ⟨TResult.http 200 (ParseResult.ok
          ⟨[⟨"r1", "A", "www.example.com", "1.2.3.4", true, 1⟩], true, []⟩),
          TResult.http 200 (ParseResult.ok ())⟩).result = none ∧
      (upsertRecord "z" "www.example.com" "A" "1.2.3.4" true 300
        ⟨TResult.http 200 (ParseResult.ok
          ⟨[⟨"r1", "A", "www.example.com", "1.2.3.4", true, 1⟩], true, []⟩),
          TResult.http 200 (ParseResult.ok ())⟩).writes = []) ↔
      ("1.2.3.4" = "1.2.3.4" ∧ true = true ∧
        ((1 : Int) = 300 ∨ (true = true ∧ (1 : Int) = 1))) :=
  upsertRecord_up_to_date_iff "z" "www.example.com" "A" "1.2.3.4" true 300 200 []
    ⟨"r1", "A", "www.example.com", "1.2.3.4", true, 1⟩ []
    (TResult.http 200 (ParseResult.ok ())) (by omega)

/-- C7: for every subdomain of a zone whose lookup succeeded, the TTL
passed to `upsertRecord` (for the A call and, when IPv6 is supplied, the
AAAA call) is the subdomain TTL if nonzero, else the zone TTL if
nonzero, else the configured default TTL if nonzero, else 300. -/
theorem processZone_effective_ttl (zone : Zone) (ipv4 ipv6 : String)
    (d : Int) (status : Nat) (errs : List String) (name : String)
    (netA netAAAA : Nat → UpsertNet) (hs : status < 400) :
    ((ProcessZone zone ipv4 ipv6 (mainDefaultTTL d)
        (TResult.http status (ParseResult.ok ⟨name, true, errs⟩))
        netA netAAAA).upserts.map fun c => c.ttl) =
      (zone.subdomains.map fun s =>
        let t := if s.ttl ≠ 0 then s.ttl
          else if zone.ttl ≠ 0 then zone.ttl
          else if d ≠ 0 then d else 300
        if ipv6 ≠ "" then [t, t] else [t]).flatten := by
  simp only [ProcessZone, cfAPI_http_lt status _ hs]
  rw [if_neg (show ¬ (true = false) by simp)]
  rw [runSubdomains_ttls]
  congr 1
  apply List.map_congr_left
  intro s _
  by_cases h1 : s.ttl = 0 <;> by_cases h2 : zone.ttl = 0 <;>
    by_cases h3 : d = 0 <;> simp [mainDefaultTTL, h1, h2, h3]

/-- Witness for C7: one zone with zone TTL 0, one subdomain with TTL 0
and one with TTL 120, configured default 0, no IPv6: the recorded TTLs
are 300 and 120. -/
theorem processZone_effective_ttl_witness :
    ((ProcessZone ⟨"z1", 0, [⟨"www", true, 0⟩, ⟨"api", false, 120⟩]⟩
        "1.2.3.4" "" (mainDefaultTTL 0)
        (TResult.http 200 (ParseResult.ok ⟨"example.com", true, []⟩))
        (fun _ => ⟨TResult.http 200 (ParseResult.ok ⟨[], true, []⟩),
          TResult.http 200 (ParseResult.ok ())⟩)
        (fun _ => ⟨TResult.http 200 (ParseResult.ok ⟨[], true, []⟩),
          TResult.http 200 (ParseResult.ok ())⟩)).upserts.map
      fun c => c.ttl) =
      (([⟨"www", true, 0⟩, ⟨"api", false, 120⟩] : List Subdomain).map fun s =>
        let t := if s.ttl ≠ 0 then s.ttl
          else if (0 : Int) ≠ 0 then 0
          else if (0 : Int) ≠ 0 then 0 else 300
        if ("" : String) ≠ "" then [t, t] else [t]).flatten :=
  processZone_effective_ttl ⟨"z1", 0, [⟨"www", true, 0⟩, ⟨"api", false, 120⟩]⟩
    "1.2.3.4" "" 0 200 [] "example.com"
    (fun _ => ⟨TResult.http 200 (ParseResult.ok ⟨[], true, []⟩),
      TResult.http 200 (ParseResult.ok ())⟩)
    (fun _ => ⟨TResult.http 200 (ParseResult.ok ⟨[], true, []⟩),
      TResult.http 200 (ParseResult.ok ())⟩) (by omega)

/-- C9: whenever the zone lookup succeeds, `processZone` returns success
once all subdomain units have run, no matter how many upsert calls
failed; each failing upsert contributes exactly its one error log event
and nothing is propagated — the error return is `nil`
unconditionally. -/
theorem processZone_swallows_upsert_errors (zone : Zone) (ipv4 ipv6 : String)
    (d : Int) (status : Nat) (errs : List String) (name : String)
    (netA netAAAA : Nat → UpsertNet) (hs : status < 400) :
    (ProcessZone zone ipv4 ipv6 d
        (TResult.http status (ParseResult.ok ⟨name, true, errs⟩))
        netA netAAAA).result = none ∧
      (ProcessZone zone ipv4 ipv6 d
        (TResult.http status (ParseResult.ok ⟨name, true, errs⟩))
        netA netAAAA).errLogs =
        (ProcessZone zone ipv4 ipv6 d
          (TResult.http status (ParseResult.ok ⟨name, true, errs⟩))
          netA netAAAA).upserts.filterMap logOfCall := by
  simp only [ProcessZone, cfAPI_http_lt status _ hs]
  rw [if_neg (show ¬ (true = false) by simp)]
  exact ⟨rfl, runSubdomains_logs _ _ _ _ _ _ _ _ _⟩

/-- Witness for C9: a zone with two subdomains whose upserts all fail
with HTTP 500 still yields a `nil` zone result, with one log event per
failed upsert. -/
theorem processZone_swallows_upsert_errors_witness :
    (ProcessZone ⟨"z1", 0, [⟨"www", true, 0⟩, ⟨"api", false, 120⟩]⟩
        "1.2.3.4" "::1" 300
        (TResult.http 200 (ParseResult.ok ⟨"example.com", true, []⟩))
        (fun _ => ⟨TResult.netErr ⟨true, true, false, []⟩,
          TResult.http 200 (ParseResult.ok ())⟩)
        (fun _ => ⟨TResult.http 500 ParseResult.malformed,
          TResult.http 200 (ParseResult.ok ())⟩)).result = none ∧
      (ProcessZone ⟨"z1", 0, [⟨"www", true, 0⟩, ⟨"api", false, 120⟩]⟩
        "1.2.3.4" "::1" 300
        (TResult.http 200 (ParseResult.ok ⟨"example.com", true, []⟩))
        (fun _ => ⟨TResult.netErr ⟨true, true, false, []⟩,
          TResult.http 200 (ParseResult.ok ())⟩)
        (fun _ => ⟨TResult.http 500 ParseResult.malformed,
          TResult.http 200 (ParseResult.ok ())⟩)).errLogs =
        (ProcessZone ⟨"z1", 0, [⟨"www", true, 0⟩, ⟨"api", false, 120⟩]⟩
          "1.2.3.4" "::1" 300
          (TResult.http 200 (ParseResult.ok ⟨"example.com", true, []⟩))
          (fun _ => ⟨TResult.netErr ⟨true, true, false, []⟩,
            TResult.http 200 (ParseResult.ok ())⟩)
          (fun _ => ⟨TResult.http 500 ParseResult.malformed,
            TResult.http 200 (ParseResult.ok ())⟩)).upserts.filterMap logOfCall :=
  processZone_swallows_upsert_errors
    ⟨"z1", 0, [⟨"www", true, 0⟩, ⟨"api", false, 120⟩]⟩ "1.2.3.4" "::1" 300
    200 [] "example.com"
    (fun _ => ⟨TResult.netErr ⟨true, true, false, []⟩,
      TResult.http 200 (ParseResult.ok ())⟩)
    (fun _ => ⟨TResult.http 500 ParseResult.malformed,
      TResult.http 200 (ParseResult.ok ())⟩) (by omega)

end cloudflare

namespace retry

lemma window_extract {s p : List Char} {i : Nat}
    (h : (s.drop i).take p.length = p) : containsSubstring s p := by
  have h2 : s.drop i = p ++ s.drop (i + p.length) := by
    conv_lhs => rw [← List.take_append_drop p.length (s.drop i)]
    rw [h, List.drop_drop]
  refine ⟨s.take i, s.drop (i + p.length), ?_⟩
  conv_lhs => rw [← List.take_append_drop i s, h2]
  rw [List.append_assoc]

lemma window_of {s p : List Char} (h : containsSubstring s p) :
    ∃ i, i + p.length ≤ s.length ∧ (s.drop i).take p.length = p := by
  obtain ⟨pre, post, rfl⟩ := h
  refine ⟨pre.length, ?_, ?_⟩
  · simp only [List.length_append]
    omega
  · rw [List.append_assoc, List.drop_left, List.take_left]

lemma findSubstring_iff (s p : List Char) :
    findSubstring s p = true ↔ containsSubstring s p := by
  constructor
  · intro h
    obtain ⟨i, _, hw⟩ := List.any_eq_true.mp h
    exact window_extract (beq_iff_eq.mp hw)
  · intro h
    obtain ⟨i, hle, hw⟩ := window_of h
    refine List.any_eq_true.mpr ⟨i, List.mem_range.mpr ?_, beq_iff_eq.mpr hw⟩
    have : p.length ≤ s.length := by omega
    omega

lemma specContains_iff (s p : List Char) :
    specContains s p = true ↔ containsSubstring s p := by
  constructor
  · intro h
    obtain ⟨i, _, hw⟩ := List.any_eq_true.mp h
    exact window_extract (beq_iff_eq.mp hw)
  · intro h
    obtain ⟨i, hle, hw⟩ := window_of h
    exact List.any_eq_true.mpr
      ⟨i, List.mem_range.mpr (by omega), beq_iff_eq.mpr hw⟩

lemma contains_iff (s p : List Char) :
    contains s p = true ↔ containsSubstring s p := by
  unfold contains
  simp only [Bool.and_eq_true, Bool.or_eq_true, decide_eq_true_eq, beq_iff_eq]
  constructor
  · rintro ⟨hge, heq | ⟨hgt, (htake | hdrop) | hfind⟩⟩
    · exact ⟨[], [], by simp [heq]⟩
    · exact @window_extract s p 0 (by simpa using htake)
    · refine ⟨s.take (s.length - p.length), [], ?_⟩
      have h3 := List.take_append_drop (s.length - p.length) s
      rw [hdrop] at h3
      rw [List.append_nil]
      exact h3.symm
    · exact (findSubstring_iff s p).mp hfind
  · intro h
    obtain ⟨i, hle, hw⟩ := window_of h
    have hlen : p.length ≤ s.length := by omega
    refine ⟨hlen, ?_⟩
    rcases Nat.lt_or_ge p.length s.length with hlt | hge2
    · exact Or.inr ⟨hlt, Or.inr ((findSubstring_iff s p).mpr h)⟩
    · left
      have hi : i = 0 := by omega
      subst hi
      rw [List.drop_zero] at hw
      rw [← hw, List.take_of_length_le (by omega)]

/-- C5 counterexample: the plain error message "too many open files" is
classified retryable by `isRetryableError`, yet it is neither a typed
network error nor any of the conditions the claim enumerates, so the
claim's classification returns false on it. -/
theorem isRetryableError_claim_counterexample :
    isRetryableError ⟨false, false, false, "too many open files".toList⟩ = true ∧
    claimRetryable ⟨false, false, false, "too many open files".toList⟩ = false := by
  decide

/-- C5 (amended): `isRetryableError` returns true for a typed network
error iff `Timeout()` or `Temporary()` holds (its message is never
consulted), and for every other error iff the message contains one of the
seven substrings "connection refused", "connection reset", "no such
host", "timeout", "temporary failure", "too many open files", or
"i/o timeout". -/
theorem isRetryableError_characterization (e : GoError) :
    isRetryableError e = true ↔
      (if e.isNet = true then (e.timeout = true ∨ e.temporary = true)
       else ∃ p, p ∈ retryablePatterns ∧ containsSubstring e.msg p) := by
  rcases hn : e.isNet with _ | _
  · simp only [isRetryableError, hn, Bool.false_eq_true, if_false, List.any_eq_true]
    constructor
    · rintro ⟨p, hp, hc⟩
      exact ⟨p, hp, (contains_iff e.msg p).mp hc⟩
    · rintro ⟨p, hp, hc⟩
      exact ⟨p, hp, (contains_iff e.msg p).mpr hc⟩
  · simp [isRetryableError, hn, Bool.or_eq_true]

end retry

namespace retry

/-- Unrolling lemma for the retry loop: if the `i` attempts starting at
loop counter `a` all fail with a retryable error and no cancellation is
observed at any of their check points, the loop proceeds to attempt
`a + i` carrying the last error, having invoked `fn` `i` times. -/
lemma withBackoffAux_reach (ctx : CtxModel) (fn : Nat → Option GoError)
    (err : Nat → GoError) :
    ∀ (i a : Nat) (l : Option GoError) (fuel : Nat),
      (∀ k, k < i → fn (a + k) = some (err (a + k))) →
      (∀ k, k < i → isRetryableError (err (a + k)) = true) →
      (∀ k, k < i → ctx.errAfterFn (a + k) = none) →
      (∀ k, k < i → 1 ≤ a + k → ctx.doneBeforeSleep (a + k) = none) →
      withBackoffAux ctx fn a l (i + fuel) =
        ((withBackoffAux ctx fn (a + i)
            (if i = 0 then l else some (err (a + i - 1))) fuel).1,
          (withBackoffAux ctx fn (a + i)
            (if i = 0 then l else some (err (a + i - 1))) fuel).2 + i) := by
  intro i
  induction i with
  | zero => intro a l fuel _ _ _ _; simp
  | succ i ih =>
    intro a l fuel h1 h2 h3 h4
    have e1 : fn a = some (err a) := by simpa using h1 0 (by omega)
    have e2 : isRetryableError (err a) = true := by simpa using h2 0 (by omega)
    have e3 : ctx.errAfterFn a = none := by simpa using h3 0 (by omega)
    have hstep : withBackoffAux ctx fn a l (i + 1 + fuel) =
        ((withBackoffAux ctx fn (a + 1) (some (err a)) (i + fuel)).1,
          (withBackoffAux ctx fn (a + 1) (some (err a)) (i + fuel)).2 + 1) := by
      rw [show i + 1 + fuel = (i + fuel) + 1 by omega]
      by_cases ha : a = 0
      · subst ha
        simp only [withBackoffAux, if_pos rfl, e1, e3, e2, if_true]
      · have e4 : ctx.doneBeforeSleep a = none := by
          simpa using h4 0 (by omega) (by omega)
        simp only [withBackoffAux, if_neg ha, e4, e1, e3, e2, if_true]
    have hih := ih (a + 1) (some (err a)) fuel
      (fun k hk => by
        have h := h1 (k + 1) (by omega)
        rw [show a + 1 + k = a + (k + 1) by omega]
        exact h)
      (fun k hk => by
        have h := h2 (k + 1) (by omega)
        rw [show a + 1 + k = a + (k + 1) by omega]
        exact h)
      (fun k hk => by
        have h := h3 (k + 1) (by omega)
        rw [show a + 1 + k = a + (k + 1) by omega]
        exact h)
      (fun k hk hk1 => by
        have h := h4 (k + 1) (by omega) (by omega)
        rw [show a + 1 + k = a + (k + 1) by omega]
        exact h)
    rw [hstep, hih]
    have hidx : a + 1 + i = a + (i + 1) := by omega
    by_cases hi0 : i = 0
    · subst hi0
      simp [hidx]
    · simp only [if_neg hi0, if_neg (by omega : ¬ (i + 1 = 0)), hidx]
      simp [Nat.add_assoc]

/-- C4: with `MaxRetries = n ≥ 0`, no cancellation, and an operation that
fails with a retryable error on every call, `WithBackoff` invokes the
operation exactly `n + 1` times and then returns the wrapped
"max retries exceeded" error carrying the last underlying error. -/
theorem withBackoff_exhausts_retries (n : Nat) (cfg : Config)
    (hm : cfg.maxRetries = (n : Int)) (ctx : CtxModel)
    (hd : ∀ k, ctx.doneBeforeSleep k = none)
    (he : ∀ k, ctx.errAfterFn k = none)
    (fn : Nat → Option GoError) (err : Nat → GoError)
    (hf : ∀ k, fn k = some (err k))
    (hr : ∀ k, isRetryableError (err k) = true) :
    WithBackoff cfg ctx fn =
      (RetryResult.maxRetriesExceeded (some (err n)), n + 1) := by
  unfold WithBackoff
  have ht : (cfg.maxRetries + 1).toNat = (n + 1) + 0 := by rw [hm]; omega
  rw [ht, withBackoffAux_reach ctx fn err (n + 1) 0 none 0
    (fun k _ => by simpa using hf k)
    (fun k _ => by simpa using hr k)
    (fun k _ => by simpa using he k)
    (fun k _ _ => by simpa using hd k)]
  simp only [withBackoffAux, if_neg (by omega : ¬ (n + 1 = 0))]
  rw [show 0 + (n + 1) - 1 = n by omega]
  simp

/-- Witness for C4: `MaxRetries = 1` and a permanently failing timeout
operation yield exactly 2 invocations and the exhausted error carrying
that timeout. -/
theorem withBackoff_exhausts_retries_witness :
    WithBackoff ⟨1, 1000000000, 2000000000⟩ ctxNone
        (fun _ => some ⟨true, true, false, []⟩) =
      (RetryResult.maxRetriesExceeded (some ⟨true, true, false, []⟩), 2) :=
  withBackoff_exhausts_retries 1 ⟨1, 1000000000, 2000000000⟩ rfl ctxNone
    (fun _ => rfl) (fun _ => rfl) (fun _ => some ⟨true, true, false, []⟩)
    (fun _ => ⟨true, true, false, []⟩) (fun _ => rfl) (fun _ => rfl)

/-- C6: suppose the run reaches attempt `i` (all earlier attempts failed
retryably with no cancellation observed).  If the cancellation signal is
observed during attempt `i`'s pre-sleep select, `fn` is invoked exactly
`i` times — attempt `i` (and a fortiori `i + 1`) never runs — and
`WithBackoff` returns the wait-cancellation error wrapping the cause.
If instead it is observed right after attempt `i`'s failed invocation,
`fn` is invoked exactly `i + 1` times — no attempt `i + 1` — and
`WithBackoff` returns the after-failure cancellation error wrapping the
cause.  Either way the result is a cancellation error, never the
retries-exhausted error: cancellation does not consume a retry
attempt. -/
theorem withBackoff_cancellation_short_circuits (cfg : Config)
    (ctx : CtxModel) (fn : Nat → Option GoError) (err : Nat → GoError)
    (i : Nat) (e : GoError) (hi : (i : Int) ≤ cfg.maxRetries)
    (h1 : ∀ k, k < i → fn k = some (err k))
    (h2 : ∀ k, k < i → isRetryableError (err k) = true)
    (h3 : ∀ k, k < i → ctx.errAfterFn k = none)
    (h4 : ∀ k, k < i → 1 ≤ k → ctx.doneBeforeSleep k = none) :
    ((1 ≤ i ∧ ctx.doneBeforeSleep i = some e) →
      WithBackoff cfg ctx fn = (RetryResult.cancelledDuringWait e, i)) ∧
    (((1 ≤ i → ctx.doneBeforeSleep i = none) ∧ ctx.errAfterFn i = some e ∧
        (∃ ei, fn i = some ei)) →
      WithBackoff cfg ctx fn = (RetryResult.cancelledAfterFailure e, i + 1)) := by
  obtain ⟨f, hf⟩ : ∃ f, (cfg.maxRetries + 1).toNat = i + (f + 1) :=
    ⟨(cfg.maxRetries + 1).toNat - i - 1, by omega⟩
  have hreach := withBackoffAux_reach ctx fn err i 0 none (f + 1)
    (fun k hk => by simpa using h1 k hk)
    (fun k hk => by simpa using h2 k hk)
    (fun k hk => by simpa using h3 k hk)
    (fun k hk hk1 => by
      have := h4 k hk (by omega)
      simpa using this)
  constructor
  · rintro ⟨hi1, hdone⟩
    have hx : withBackoffAux ctx fn (0 + i)
        (if i = 0 then none else some (err (0 + i - 1))) (f + 1) =
        (RetryResult.cancelledDuringWait e, 0) := by
      simp [withBackoffAux, if_neg (by omega : ¬ i = 0), hdone]
    unfold WithBackoff
    rw [hf, hreach, hx]
    simp
  · rintro ⟨hdone, herr, ⟨ei, hfn⟩⟩
    have hx : withBackoffAux ctx fn (0 + i)
        (if i = 0 then none else some (err (0 + i - 1))) (f + 1) =
        (RetryResult.cancelledAfterFailure e, 1) := by
      by_cases hi0 : i = 0
      · subst hi0
        simp [withBackoffAux, hfn, herr]
      · have hd := hdone (by omega)
        simp [withBackoffAux, if_neg hi0, hd, hfn, herr]
    unfold WithBackoff
    rw [hf, hreach, hx]
    simp [Nat.add_comm]

/-- Witness for C6: with one retryable failure at attempt 0 and the
cancellation signal observed at attempt 1's pre-sleep select, the run
stops with the wait-cancellation error after a single invocation. -/
theorem withBackoff_cancellation_short_circuits_witness :
    WithBackoff ⟨3, 1000000000, 2000000000⟩
        ⟨fun _ => some ⟨false, false, false, "cancelled".toList⟩, fun _ => none⟩
        (fun _ => some ⟨true, true, false, []⟩) =
      (RetryResult.cancelledDuringWait ⟨false, false, false, "cancelled".toList⟩,
        1) :=
  (withBackoff_cancellation_short_circuits ⟨3, 1000000000, 2000000000⟩
      ⟨fun _ => some ⟨false, false, false, "cancelled".toList⟩, fun _ => none⟩
      (fun _ => some ⟨true, true, false, []⟩) (fun _ => ⟨true, true, false, []⟩)
      1 ⟨false, false, false, "cancelled".toList⟩ (by norm_num)
      (fun _ _ => rfl) (fun _ _ => rfl) (fun _ _ => rfl)
      (fun k hk hk1 => absurd hk1 (by omega))).1 ⟨by omega, rfl⟩

/-- C10: if the run reaches attempt `i` and the operation succeeds there,
`WithBackoff` returns success with exactly `i + 1` invocations; nothing
constrains the cancellation oracle at or after that point, so the success
is returned even when the cancellation signal is already raised —
cancellation is observed only before a retry sleep or after a failed
invocation, never on the success path. -/
theorem withBackoff_success_despite_cancellation (cfg : Config)
    (ctx : CtxModel) (fn : Nat → Option GoError) (err : Nat → GoError)
    (i : Nat) (hi : (i : Int) ≤ cfg.maxRetries)
    (h1 : ∀ k, k < i → fn k = some (err k))
    (h2 : ∀ k, k < i → isRetryableError (err k) = true)
    (h3 : ∀ k, k < i → ctx.errAfterFn k = none)
    (h4 : ∀ k, k < i → 1 ≤ k → ctx.doneBeforeSleep k = none)
    (hdone : 1 ≤ i → ctx.doneBeforeSleep i = none)
    (hfn : fn i = none) :
    WithBackoff cfg ctx fn = (RetryResult.ok, i + 1) := by
  obtain ⟨f, hf⟩ : ∃ f, (cfg.maxRetries + 1).toNat = i + (f + 1) :=
    ⟨(cfg.maxRetries + 1).toNat - i - 1, by omega⟩
  have hreach := withBackoffAux_reach ctx fn err i 0 none (f + 1)
    (fun k hk => by simpa using h1 k hk)
    (fun k hk => by simpa using h2 k hk)
    (fun k hk => by simpa using h3 k hk)
    (fun k hk hk1 => by
      have := h4 k hk (by omega)
      simpa using this)
  have hx : withBackoffAux ctx fn (0 + i)
      (if i = 0 then none else some (err (0 + i - 1))) (f + 1) =
      (RetryResult.ok, 1) := by
    by_cases hi0 : i = 0
    · subst hi0
      simp [withBackoffAux, hfn]
    · have hd := hdone (by omega)
      simp [withBackoffAux, if_neg hi0, hd, hfn]
  unfold WithBackoff
  rw [hf, hreach, hx]
  simp [Nat.add_comm]

/-- Witness for C10: a context whose cancellation signal is raised at
every observation point still yields success when the very first
invocation succeeds. -/
theorem withBackoff_success_despite_cancellation_witness :
    WithBackoff ⟨5, 1000000000, 32000000000⟩
        ⟨fun _ => some ⟨false, false, false, "cancelled".toList⟩,
          fun _ => some ⟨false, false, false, "cancelled".toList⟩⟩
        (fun _ => none) =
      (RetryResult.ok, 1) :=
  withBackoff_success_despite_cancellation ⟨5, 1000000000, 32000000000⟩
    ⟨fun _ => some ⟨false, false, false, "cancelled".toList⟩,
      fun _ => some ⟨false, false, false, "cancelled".toList⟩⟩
    (fun _ => none) (fun _ => ⟨true, true, false, []⟩) 0 (by norm_num)
    (fun k hk => absurd hk (Nat.not_lt_zero k))
    (fun k hk => absurd hk (Nat.not_lt_zero k))
    (fun k hk => absurd hk (Nat.not_lt_zero k))
    (fun k hk _ => absurd hk (Nat.not_lt_zero k))
    (fun h => absurd h (by omega)) rfl

end retry

namespace retry

lemma backoffBase_nonneg (cfg : Config) (k : Nat) (hiw : 0 ≤ cfg.initialWait)
    (hmw : 0 ≤ cfg.maxWait) : 0 ≤ backoffBase cfg k := by
  have hp : (0 : Int) ≤ 2 ^ (k - 1) * cfg.initialWait :=
    mul_nonneg (pow_nonneg (by norm_num) _) hiw
  simp only [backoffBase]
  split <;> [exact hmw; exact hp]

lemma backoffBase_le_maxWait (cfg : Config) (k : Nat)
    (hiw : 0 ≤ cfg.initialWait) : backoffBase cfg k ≤ cfg.maxWait := by
  simp only [backoffBase]
  split <;> omega

lemma backoffBase_le_pow (cfg : Config) (k : Nat) :
    backoffBase cfg k ≤ 2 ^ (k - 1) * cfg.initialWait := by
  simp only [backoffBase]
  split <;> omega

/-- C2 counterexample: with InitialWait = 1s and MaxWait = 2s, at attempt
k = 3 the capped base is 2s and the drawn jitter 0.75s (drawable: it is
nonnegative and at most half the capped base) subtracted from it gives a
delay of 1.25s — strictly below the claimed lower bound
`initial_wait * 2^(k-1) * 0.5 = 2s`. -/
theorem backoffDelay_claim_counterexample :
    backoffDelay ⟨5, 1000000000, 2000000000⟩ 3 750000000 false = 1250000000 ∧
    (0 : Int) ≤ 750000000 ∧
    2 * (750000000 : Int) ≤ backoffBase ⟨5, 1000000000, 2000000000⟩ 3 ∧
    ¬ ((1000000000 : ℚ) * 2 ^ (3 - 1) * (1 / 2) ≤
        ((backoffDelay ⟨5, 1000000000, 2000000000⟩ 3 750000000 false : Int) : ℚ)) := by
  refine ⟨by norm_num [backoffDelay, backoffBase], by norm_num,
    by norm_num [backoffBase], ?_⟩
  norm_num [backoffDelay, backoffBase]

/-- C2 (amended): for every attempt k ≥ 1, nonnegative configured waits,
and every drawable jitter and coin flip, the delay lies between 0.5 and
1.5 times the capped base `min(initial_wait * 2^(k-1), max_wait)`.  The
claimed upper bounds `delay ≤ initial_wait * 2^(k-1) * 1.5` and
`delay ≤ max_wait * 1.5` hold as stated; the claimed lower bound holds
with the capped base in place of the uncapped exponential (and fails as
originally stated once the exponential exceeds `max_wait`). -/
theorem backoffDelay_bounds (cfg : Config) (k : Nat) (j : Int) (add : Bool)
    (hk : 1 ≤ k) (hiw : 0 ≤ cfg.initialWait) (hmw : 0 ≤ cfg.maxWait)
    (hj0 : 0 ≤ j) (hj : 2 * j ≤ backoffBase cfg k) :
    ((backoffBase cfg k : ℚ) * (1 / 2) ≤ (backoffDelay cfg k j add : ℚ)) ∧
    ((backoffDelay cfg k j add : ℚ) ≤ (backoffBase cfg k : ℚ) * (3 / 2)) ∧
    ((backoffDelay cfg k j add : ℚ) ≤
      ((2 ^ (k - 1) * cfg.initialWait : Int) : ℚ) * (3 / 2)) ∧
    ((backoffDelay cfg k j add : ℚ) ≤ (cfg.maxWait : ℚ) * (3 / 2)) := by
  have hb0 := backoffBase_nonneg cfg k hiw hmw
  have hb1 := backoffBase_le_maxWait cfg k hiw
  have hb2 := backoffBase_le_pow cfg k
  have hd : backoffDelay cfg k j add = backoffBase cfg k + j ∨
      backoffDelay cfg k j add = backoffBase cfg k - j := by
    simp only [backoffDelay]
    rcases add with _ | _ <;> simp
  have hb0q : (0 : ℚ) ≤ (backoffBase cfg k : ℚ) := by exact_mod_cast hb0
  have hb1q : (backoffBase cfg k : ℚ) ≤ (cfg.maxWait : ℚ) := by exact_mod_cast hb1
  have hb2q : (backoffBase cfg k : ℚ) ≤ 2 ^ (k - 1) * (cfg.initialWait : ℚ) := by
    exact_mod_cast hb2
  have hj0q : (0 : ℚ) ≤ (j : ℚ) := by exact_mod_cast hj0
  have hjq : 2 * (j : ℚ) ≤ (backoffBase cfg k : ℚ) := by exact_mod_cast hj
  rcases hd with hd | hd <;> rw [hd] <;> push_cast <;>
    exact ⟨by linarith, by linarith, by linarith, by linarith⟩

/-- Witness for C2 (amended): InitialWait = 1s, MaxWait = 2s, attempt 3,
jitter 0.75s, subtracting coin — the bounds hold around the capped base
2s. -/
theorem backoffDelay_bounds_witness :
    ((backoffBase ⟨5, 1000000000, 2000000000⟩ 3 : ℚ) * (1 / 2) ≤
      (backoffDelay ⟨5, 1000000000, 2000000000⟩ 3 750000000 false : ℚ)) ∧
    ((backoffDelay ⟨5, 1000000000, 2000000000⟩ 3 750000000 false : ℚ) ≤
      (backoffBase ⟨5, 1000000000, 2000000000⟩ 3 : ℚ) * (3 / 2)) ∧
    ((backoffDelay ⟨5, 1000000000, 2000000000⟩ 3 750000000 false : ℚ) ≤
      ((2 ^ (3 - 1) * (1000000000 : Int) : Int) : ℚ) * (3 / 2)) ∧
    ((backoffDelay ⟨5, 1000000000, 2000000000⟩ 3 750000000 false : ℚ) ≤
      ((2000000000 : Int) : ℚ) * (3 / 2)) :=
  backoffDelay_bounds ⟨5, 1000000000, 2000000000⟩ 3 750000000 false
    (by norm_num) (by norm_num) (by norm_num) (by norm_num)
    (by norm_num [backoffBase])

end retry

namespace cloudflare

/-- C8: when the list query returns more than one record for the queried
(name, type) pair, `upsertRecord` emits exactly one warning naming the
returned count, treats the first record in response order as canonical —
every write request it issues is a PUT update addressed to that first
record's id carrying the desired fields — and issues no delete and no
request touching the remaining records; the multiplicity itself causes no
failure (the call returns nil unless the update transport call itself
fails). -/
theorem upsertRecord_multiple_records_first_canonical
    (zoneID fqdn recordType ip : String) (proxied : Bool) (ttl : Int)
    (status : Nat) (errs : List String) (r1 r2 : Record) (rest : List Record)
    (w : TResult Unit) (hs : status < 400) :
    (upsertRecord zoneID fqdn recordType ip proxied ttl
        ⟨TResult.http status (ParseResult.ok ⟨r1 :: r2 :: rest, true, errs⟩),
          w⟩).warnings = [rest.length + 2] ∧
    (∀ wr ∈ (upsertRecord zoneID fqdn recordType ip proxied ttl
        ⟨TResult.http status (ParseResult.ok ⟨r1 :: r2 :: rest, true, errs⟩),
          w⟩).writes,
      wr = WriteReq.update zoneID r1.id ⟨"", recordType, fqdn, ip, proxied, ttl⟩) ∧
    ((upsertRecord zoneID fqdn recordType ip proxied ttl
        ⟨TResult.http status (ParseResult.ok ⟨r1 :: r2 :: rest, true, errs⟩),
          w⟩).result = none ∨
      ∃ e, (upsertRecord zoneID fqdn recordType ip proxied ttl
        ⟨TResult.http status (ParseResult.ok ⟨r1 :: r2 :: rest, true, errs⟩),
          w⟩).result = some (CfErr.updateRecord e)) := by
  by_cases hc : (r1.content == ip && r1.proxied == proxied &&
      (r1.ttl == ttl || (proxied && r1.ttl == 1))) = true
  · simp only [upsertRecord, cfAPI_http_lt status _ hs, hc, if_true]
    refine ⟨by simp [List.length_cons], by simp, Or.inl rfl⟩
  · rcases h2 : cfAPI w with e | b <;>
    · simp only [upsertRecord, cfAPI_http_lt status _ hs, hc, h2]
      refine ⟨by simp [List.length_cons], by simp, ?_⟩
      first
        | exact Or.inr ⟨e, by simp⟩
        | exact Or.inl (by simp)

/-- Witness for C8: two remote records for one name with stale content —
the single write issued is the update addressed to the first record's
id, one warning carries the count 2, and the call succeeds. -/
theorem upsertRecord_multiple_records_first_canonical_witness :
    (upsertRecord "z" "www.example.com" "A" "1.2.3.4" true 300
        ⟨TResult.http 200 (ParseResult.ok
          ⟨[⟨"rec1", "A", "www.example.com", "5.6.7.8", true, 300⟩,
            ⟨"rec2", "A", "www.example.com", "5.6.7.8", true, 300⟩], true, []⟩),
          TResult.http 200 (ParseResult.ok ())⟩).warnings =
      [List.length ([] : List Record) + 2] ∧
    (∀ wr ∈ (upsertRecord "z" "www.example.com" "A" "1.2.3.4" true 300
        ⟨TResult.http 200 (ParseResult.ok
          ⟨[⟨"rec1", "A", "www.example.com", "5.6.7.8", true, 300⟩,
            ⟨"rec2", "A", "www.example.com", "5.6.7.8", true, 300⟩], true, []⟩),
          TResult.http 200 (ParseResult.ok ())⟩).writes,
      wr = WriteReq.update "z" (Record.id ⟨"rec1", "A", "www.example.com", "5.6.7.8", true, 300⟩)
        ⟨"", "A", "www.example.com", "1.2.3.4", true, 300⟩) ∧
    ((upsertRecord "z" "www.example.com" "A" "1.2.3.4" true 300
        ⟨TResult.http 200 (ParseResult.ok
          ⟨[⟨"rec1", "A", "www.example.com", "5.6.7.8", true, 300⟩,
            ⟨"rec2", "A", "www.example.com", "5.6.7.8", true, 300⟩], true, []⟩),
          TResult.http 200 (ParseResult.ok ())⟩).result = none ∨
      ∃ e, (upsertRecord "z" "www.example.com" "A" "1.2.3.4" true 300
        ⟨TResult.http 200 (ParseResult.ok
          ⟨[⟨"rec1", "A", "www.example.com", "5.6.7.8", true, 300⟩,
            ⟨"rec2", "A", "www.example.com", "5.6.7.8", true, 300⟩], true, []⟩),
          TResult.http 200 (ParseResult.ok ())⟩).result =
        some (CfErr.updateRecord e)) :=
  upsertRecord_multiple_records_first_canonical "z" "www.example.com" "A"
    "1.2.3.4" true 300 200 []
    ⟨"rec1", "A", "www.example.com", "5.6.7.8", true, 300⟩
    ⟨"rec2", "A", "www.example.com", "5.6.7.8", true, 300⟩ []
    (TResult.http 200 (ParseResult.ok ())) (by omega)

end cloudflare

/-- C1 counterexample: a list query failing with a retryable transient
transport error (a typed network timeout) makes `upsertRecord` report
failure after exactly one transport invocation, whereas an operation
failing the same way on every call is invoked `MaxRetries + 1 = 6` times
by `WithBackoff` under the default policy.  The reconciliation path's
network calls are therefore not executed under the Backoff Scheduler. -/
theorem reconciliation_path_not_retried_counterexample :
    retry.isRetryableError ⟨true, true, false, []⟩ = true ∧
    (cloudflare.upsertRecord "z" "www.example.com" "A" "1.2.3.4" false 300
        ⟨cloudflare.TResult.netErr ⟨true, true, false, []⟩,
          cloudflare.TResult.http 200 (cloudflare.ParseResult.ok ())⟩).transportCalls
      = 1 ∧
    (cloudflare.upsertRecord "z" "www.example.com" "A" "1.2.3.4" false 300
        ⟨cloudflare.TResult.netErr ⟨true, true, false, []⟩,
          cloudflare.TResult.http 200 (cloudflare.ParseResult.ok ())⟩).result =
      some (cloudflare.CfErr.listRecords
        (cloudflare.CfCallErr.executeRequest ⟨true, true, false, []⟩)) ∧
    (retry.WithBackoff retry.DefaultConfig retry.ctxNone
        (fun _ => some ⟨true, true, false, []⟩)).2 = 6 ∧
    (1 : Nat) ≠ 6 := by
  refine ⟨rfl, rfl, rfl, by decide, by decide⟩

/-- C1 (amended): no network call on the reconciliation path runs under
the Backoff Scheduler.  Each `cfAPI` call performs exactly one transport
invocation and a transport failure — retryable or not — propagates
immediately: a failed list query fails `upsertRecord` after one
transport call, a failed create after two (successful empty list, then
the create), and a failed zone lookup fails `processZone` after one
transport call.  Only the public-IP discovery path invokes
`WithBackoff`. -/
theorem reconciliation_path_single_shot (zoneID fqdn recordType ip : String)
    (proxied : Bool) (ttl : Int) (e : retry.GoError)
    (w : cloudflare.TResult Unit) (errs : List String) (status : Nat)
    (zone : cloudflare.Zone) (ipv4 ipv6 : String) (d : Int)
    (netA netAAAA : Nat → cloudflare.UpsertNet) (hs : status < 400) :
    ((cloudflare.upsertRecord zoneID fqdn recordType ip proxied ttl
        ⟨cloudflare.TResult.netErr e, w⟩).result =
      some (cloudflare.CfErr.listRecords (cloudflare.CfCallErr.executeRequest e)) ∧
      (cloudflare.upsertRecord zoneID fqdn recordType ip proxied ttl
        ⟨cloudflare.TResult.netErr e, w⟩).transportCalls = 1) ∧
    ((cloudflare.upsertRecord zoneID fqdn recordType ip proxied ttl
        ⟨cloudflare.TResult.http status (cloudflare.ParseResult.ok ⟨[], true, errs⟩),
          cloudflare.TResult.netErr e⟩).result =
      some (cloudflare.CfErr.createRecord (cloudflare.CfCallErr.executeRequest e)) ∧
      (cloudflare.upsertRecord zoneID fqdn recordType ip proxied ttl
        ⟨cloudflare.TResult.http status (cloudflare.ParseResult.ok ⟨[], true, errs⟩),
          cloudflare.TResult.netErr e⟩).transportCalls = 2) ∧
    ((cloudflare.ProcessZone zone ipv4 ipv6 d (cloudflare.TResult.netErr e)
        netA netAAAA).result =
      some (cloudflare.CfErr.getZone (cloudflare.CfCallErr.executeRequest e)) ∧
      (cloudflare.ProcessZone zone ipv4 ipv6 d (cloudflare.TResult.netErr e)
        netA netAAAA).transportCalls = 1) := by
  refine ⟨⟨rfl, rfl⟩, ?_, ⟨rfl, rfl⟩⟩
  simp only [cloudflare.upsertRecord, cloudflare.cfAPI_http_lt status _ hs]
  exact ⟨rfl, rfl⟩

/-- Witness for C1 (amended): concrete single-shot failures on the list,
create, and zone-lookup calls. -/
theorem reconciliation_path_single_shot_witness :
    ((cloudflare.upsertRecord "z" "www.example.com" "A" "1.2.3.4" false 300
        ⟨cloudflare.TResult.netErr ⟨true, true, false, []⟩,
          cloudflare.TResult.http 200 (cloudflare.ParseResult.ok ())⟩).result =
      some (cloudflare.CfErr.listRecords
        (cloudflare.CfCallErr.executeRequest ⟨true, true, false, []⟩)) ∧
      (cloudflare.upsertRecord "z" "www.example.com" "A" "1.2.3.4" false 300
        ⟨cloudflare.TResult.netErr ⟨true, true, false, []⟩,
          cloudflare.TResult.http 200 (cloudflare.ParseResult.ok ())⟩).transportCalls
        = 1) ∧
    ((cloudflare.upsertRecord "z" "www.example.com" "A" "1.2.3.4" false 300
        ⟨cloudflare.TResult.http 200 (cloudflare.ParseResult.ok ⟨[], true, []⟩),
          cloudflare.TResult.netErr ⟨true, true, false, []⟩⟩).result =
      some (cloudflare.CfErr.createRecord
        (cloudflare.CfCallErr.executeRequest ⟨true, true, false, []⟩)) ∧
      (cloudflare.upsertRecord "z" "www.example.com" "A" "1.2.3.4" false 300
        ⟨cloudflare.TResult.http 200 (cloudflare.ParseResult.ok ⟨[], true, []⟩),
          cloudflare.TResult.netErr ⟨true, true, false, []⟩⟩).transportCalls = 2) ∧
    ((cloudflare.ProcessZone ⟨"z1", 0, []⟩ "1.2.3.4" "" 300
        (cloudflare.TResult.netErr ⟨true, true, false, []⟩)
        (fun _ => ⟨cloudflare.TResult.http 200 (cloudflare.ParseResult.ok ⟨[], true, []⟩),
          cloudflare.TResult.http 200 (cloudflare.ParseResult.ok ())⟩)
        (fun _ => ⟨cloudflare.TResult.http 200 (cloudflare.ParseResult.ok ⟨[], true, []⟩),
          cloudflare.TResult.http 200 (cloudflare.ParseResult.ok ())⟩)).result =
      some (cloudflare.CfErr.getZone
        (cloudflare.CfCallErr.executeRequest ⟨true, true, false, []⟩)) ∧
      (cloudflare.ProcessZone ⟨"z1", 0, []⟩ "1.2.3.4" "" 300
        (cloudflare.TResult.netErr ⟨true, true, false, []⟩)
        (fun _ => ⟨cloudflare.TResult.http 200 (cloudflare.ParseResult.ok ⟨[], true, []⟩),
          cloudflare.TResult.http 200 (cloudflare.ParseResult.ok ())⟩)
        (fun _ => ⟨cloudflare.TResult.http 200 (cloudflare.ParseResult.ok ⟨[], true, []⟩),
          cloudflare.TResult.http 200 (cloudflare.ParseResult.ok ())⟩)).transportCalls
        = 1) :=
  reconciliation_path_single_shot "z" "www.example.com" "A" "1.2.3.4" false 300
    ⟨true, true, false, []⟩
    (cloudflare.TResult.http 200 (cloudflare.ParseResult.ok ())) [] 200
    ⟨"z1", 0, []⟩ "1.2.3.4" "" 300
    (fun _ => ⟨cloudflare.TResult.http 200 (cloudflare.ParseResult.ok ⟨[], true, []⟩),
      cloudflare.TResult.http 200 (cloudflare.ParseResult.ok ())⟩)
    (fun _ => ⟨cloudflare.TResult.http 200 (cloudflare.ParseResult.ok ⟨[], true, []⟩),
      cloudflare.TResult.http 200 (cloudflare.ParseResult.ok ())⟩) (by omega)
